import Mathlib

/-!
Shallow embedding of the orchestration core of the Ingredients-Analyzer-Advisor
repository: the LangGraph workflow in `src/workflows/health_advisor_graph.py`,
the node functions in `src/nodes/`, the state schema in
`src/state/graph_state.py`, and the Pydantic data model in
`src/models/data_models.py`.

External effects (the Groq vision call, the LLM chains, the MCP search tool)
are modelled as oracle outcomes passed to each node function: an
`Except String R` value is the result the executor would have produced on this
run — `.ok r` for a normal return and `.error e` for a raised exception whose
`str(e)` is `e`.  Wall-clock reads (`time.time()`) only feed `print` logging
and the undeclared `current_task_start_time` key, so they are omitted.
-/

namespace HealthAdvisor

/-! ## Data model (src/models/data_models.py) -/

/-- Enum `ImageValidationStatus` from `src/models/data_models.py`. -/
inductive ImageValidationStatus where
  | valid_food_image
  | invalid_not_food
  | invalid_no_ingredients
  | invalid_poor_quality
  | error
  deriving DecidableEq, Repr

/-- Pydantic model `NutritionalInfo`; numeric fields are Python floats,
embedded as rationals (no claim computes with them). -/
structure NutritionalInfo where
  calories_per_100g : Option Rat := none
  protein_grams : Option Rat := none
  fat_grams : Option Rat := none
  carbohydrates_grams : Option Rat := none
  fiber_grams : Option Rat := some 0
  sugar_grams : Option Rat := none
  sodium_mg : Option Rat := none
  deriving DecidableEq, Repr

/-- Pydantic model `ExtractedIngredientsData` (defaults as in the source). -/
structure ExtractedIngredientsData where
  validation_status : ImageValidationStatus
  is_food_product : Option Bool := none
  has_ingredients_list : Option Bool := none
  image_quality_assessment : Option String := none
  ingredients : List String := []
  allergens : List String := []
  warnings : List String := []
  nutritional_info : Option NutritionalInfo := none
  product_name : Option String := none
  brand : Option String := none
  confidence_score : Rat := 1/2
  error_message : Option String := none
  deriving DecidableEq, Repr

/-- Pydantic model `HealthAnalysisReport`. -/
structure HealthAnalysisReport where
  analysis_type : String
  findings : List String
  detailed_analysis : String
  confidence_level : String
  sources_consulted : List String := []
  health_score_impact : Option Rat := none
  deriving DecidableEq, Repr

/-- Pydantic model `HealthyAlternative`. -/
structure HealthyAlternative where
  product_name : String
  reason : String
  availability : Option String := none
  nutritional_comparison : Option String := none
  deriving DecidableEq, Repr

/-- Pydantic model `HealthyAlternativesReport` (the `≤ 3` alternatives
validator runs inside the output parser, i.e. inside the chain oracle). -/
structure HealthyAlternativesReport where
  alternatives : List HealthyAlternative := []
  summary : String
  deriving DecidableEq, Repr

/-- Pydantic model `CompleteHealthAnalysis`.  `extracted_data` has no default
and is not `Optional` in the source, so constructing it with `None` raises a
ValidationError; that is reflected where the constructor is called
(`compile_final_report_node`). -/
structure CompleteHealthAnalysis where
  input_image_path : String
  extracted_data : ExtractedIngredientsData
  benefits_analysis : Option HealthAnalysisReport := none
  disadvantages_analysis : Option HealthAnalysisReport := none
  disease_analysis : Option HealthAnalysisReport := none
  alternatives_report : Option HealthyAlternativesReport := none
  overall_health_assessment : Option String := none
  processing_time_seconds : Option Rat := none
  final_summary_message_for_user : Option String := none
  deriving DecidableEq, Repr

/-! ## State schema (src/state/graph_state.py)

`HealthAdvisorState` is a `TypedDict` with `total=False`: every key may be
absent, and each key is a `LastValue` channel.  Absent and present-as-`None`
are both embedded as `none` (the nodes read every optional key through
`state.get`, which conflates the two). -/

/-- TypedDict `HealthAdvisorState` from `src/state/graph_state.py`. -/
structure HealthAdvisorState where
  image_path : Option String := none
  extracted_data : Option ExtractedIngredientsData := none
  should_stop_processing : Option Bool := none
  error_message : Option String := none
  benefits_analysis : Option HealthAnalysisReport := none
  disadvantages_analysis : Option HealthAnalysisReport := none
  disease_analysis : Option HealthAnalysisReport := none
  alternatives_report : Option HealthyAlternativesReport := none
  final_analysis : Option CompleteHealthAnalysis := none
  deriving DecidableEq, Repr

/-- The field names declared as channels in `HealthAdvisorState`
(`src/state/graph_state.py`, lines 13-25). -/
def declaredFields : List String :=
  ["image_path", "extracted_data", "should_stop_processing", "error_message",
   "benefits_analysis", "disadvantages_analysis", "disease_analysis",
   "alternatives_report", "final_analysis"]

/-- A value carried by one patch entry (one typed channel update). -/
inductive FieldValue where
  | str : String → FieldValue
  | bool : Bool → FieldValue
  | extracted : ExtractedIngredientsData → FieldValue
  | report : HealthAnalysisReport → FieldValue
  | alternatives : HealthyAlternativesReport → FieldValue
  | complete : CompleteHealthAnalysis → FieldValue
  deriving DecidableEq, Repr

/-- A node's returned update: the (field name, value) pairs of the dict the
node function returns. -/
abbrev Patch := List (String × FieldValue)

/-- Modelled from the spec (§3 StateRecord, §6 Task contract): the StateStore
holds exactly the declared fields, each a LastValue channel; a patch entry
whose field name is not a declared channel has no channel to write and is
dropped.  (The merge machinery itself lives in the langgraph framework, not
under `src/`; the repository's own nodes already rely on undeclared keys such
as `current_task_start_time` being tolerated.) -/
def applyField (s : HealthAdvisorState) (kv : String × FieldValue) : HealthAdvisorState :=
  match kv with
  | ("image_path", FieldValue.str v) => { s with image_path := some v }
  | ("extracted_data", FieldValue.extracted v) => { s with extracted_data := some v }
  | ("should_stop_processing", FieldValue.bool v) => { s with should_stop_processing := some v }
  | ("error_message", FieldValue.str v) => { s with error_message := some v }
  | ("benefits_analysis", FieldValue.report v) => { s with benefits_analysis := some v }
  | ("disadvantages_analysis", FieldValue.report v) => { s with disadvantages_analysis := some v }
  | ("disease_analysis", FieldValue.report v) => { s with disease_analysis := some v }
  | ("alternatives_report", FieldValue.alternatives v) => { s with alternatives_report := some v }
  | ("final_analysis", FieldValue.complete v) => { s with final_analysis := some v }
  | _ => s

/-- Merge a node's patch into the state, one LastValue write per entry. -/
def applyPatch (s : HealthAdvisorState) (p : Patch) : HealthAdvisorState :=
  p.foldl applyField s

/-! ## Entry node (src/nodes/ingredient_extractor.py) -/

/-- The `ExtractedIngredientsData` the extractor constructs on an encoding
failure (lines 41-46): `validation_status=ERROR, is_food_product=False,
confidence_score=0.0, error_message=str(e)`; remaining fields default. -/
def encodeErrorData (e : String) : ExtractedIngredientsData :=
  { validation_status := ImageValidationStatus.error
    is_food_product := some false
    confidence_score := 0
    error_message := some e }

/-- The `ExtractedIngredientsData` the extractor constructs when the LLM call
or parse raises (lines 108-113). -/
def llmErrorData (e : String) : ExtractedIngredientsData :=
  { validation_status := ImageValidationStatus.error
    is_food_product := some false
    confidence_score := 0
    error_message := some ("LLM processing or parsing error: " ++ e) }

/-- Node `ingredient_extractor_node` (src/nodes/ingredient_extractor.py,
lines 29-120).  `encodeR` is the outcome of `_encode_image_to_base64`
(base64 string or raised exception); `llmR` is the outcome of the Groq chat
call followed by `parser.parse` (a validated `ExtractedIngredientsData` or a
raised exception).  The node mutates the state dict in place and returns it;
`state["image_path"]` raises `KeyError` when the key is absent, which is the
only way the node itself can raise. -/
def ingredient_extractor_node (encodeR : Except String String)
    (llmR : Except String ExtractedIngredientsData)
    (state : HealthAdvisorState) : Except String HealthAdvisorState :=
  match state.image_path with
  | none => Except.error "KeyError: image_path"
  | some _ =>
    match encodeR with
    | Except.error e =>
      Except.ok { state with
        extracted_data := some (encodeErrorData e)
        should_stop_processing := some true
        error_message := some e }
    | Except.ok _ =>
      match llmR with
      | Except.error e =>
        Except.ok { state with
          extracted_data := some (llmErrorData e)
          should_stop_processing := some true
          error_message := some e }
      | Except.ok ed =>
        let stop := ed.validation_status ≠ ImageValidationStatus.valid_food_image
        Except.ok { state with
          extracted_data := some ed
          should_stop_processing := some (decide stop)
          error_message :=
            if stop then some (ed.error_message.getD "Image validation failed.")
            else state.error_message }

/-! ## Analysis nodes (src/nodes/analysis_node.py) -/

/-- One `title`/`snippet` entry of the MCP search tool's JSON result. -/
structure SearchItem where
  title : String
  snippet : String
  deriving DecidableEq, Repr

/-- The placeholder report of the short-circuit branch (lines 64-70). -/
def skippedReport (t : String) : HealthAnalysisReport :=
  { analysis_type := t
    findings := ["Analysis skipped"]
    detailed_analysis := "Processing stopped before " ++ t ++ " analysis."
    confidence_level := "N/A"
    health_score_impact := some 0 }

/-- The placeholder report of the missing-ingredients branch (lines 76-82). -/
def missingIngredientsReport (t : String) : HealthAnalysisReport :=
  { analysis_type := t
    findings := ["Missing ingredients"]
    detailed_analysis := "No ingredients data available for " ++ t ++ " analysis."
    confidence_level := "Low"
    health_score_impact := some 0 }

/-- The degraded report built in the `except` handler around `chain.invoke`
(lines 121-128): the error description `str(e)` replaces the normal output. -/
def chainErrorReport (t : String) (e : String) : HealthAnalysisReport :=
  { analysis_type := t
    findings := ["Error during " ++ t ++ " analysis"]
    detailed_analysis := e
    confidence_level := "Error"
    health_score_impact := some 0 }

/-- The report an analysis node puts in its patch, following the branch
structure of `analysis_node` (src/nodes/analysis_node.py, lines 56-132):
short-circuit check, missing-ingredients check, then `chain.invoke` inside
try/except.  The MCP search (lines 88-107) only shapes the chain's
`search_context` input and is caught on failure, so it never changes which
branch is taken; `chainR` is the outcome of `chain.invoke`. -/
def analysisOutcome (t : String)
    (chainR : Except String HealthAnalysisReport)
    (state : HealthAdvisorState) : HealthAnalysisReport :=
  if state.should_stop_processing.getD false then
    skippedReport t
  else
    match state.extracted_data with
    | none => missingIngredientsReport t
    | some ed =>
      if ed.ingredients.isEmpty then missingIngredientsReport t
      else
        match chainR with
        | Except.ok report => report
        | Except.error e => chainErrorReport t e

/-- Node function `analysis_node` produced by `_create_analysis_node_factory`
for analysis type `t`.  Every return site of the source function is a
single-key dict whose key is the f-string `f"{analysis_type}_analysis"`
(lines 64, 76, 119, 122), so the node's patch is that one entry.  `searchR`
is the outcome of `SyncMCPSearchTool.search` (raised exception, or parsed
`results` list); it is threaded for the executor-independence statements but
cannot affect the patch (see `analysisOutcome`). -/
def analysis_node (t : String)
    (_searchR : Except String (List SearchItem))
    (chainR : Except String HealthAnalysisReport)
    (state : HealthAdvisorState) : Patch :=
  [(t ++ "_analysis", FieldValue.report (analysisOutcome t chainR state))]

/-- `create_benefits_analysis_node` instantiates the factory with
`analysis_type = "benefits"` (src/nodes/analysis_node.py, line 158). -/
def benefits_analysis_node := analysis_node "benefits"

/-- `create_disadvantages_analysis_node` instantiates the factory with
`analysis_type = "disadvantages"` (line 184). -/
def disadvantages_analysis_node := analysis_node "disadvantages"

/-- `create_disease_analysis_node` instantiates the factory with
`analysis_type = "disease_associations"` (line 209), so its patch key is the
f-string `"disease_associations_analysis"`. -/
def disease_analysis_node := analysis_node "disease_associations"

/-! ## Alternatives node (src/nodes/alternatives_recommender.py) -/

/-- The `HealthyAlternativesReport` the alternatives node stores, following
the branch structure of `alternatives_recommender_node` (lines 68-140):
short-circuit check, missing-extracted-data check, then `chain.ainvoke`
inside try/except.  The alternatives search (lines 100-115) only shapes the
chain's `search_context` input and is caught on failure. -/
def alternativesOutcome
    (chainR : Except String HealthyAlternativesReport)
    (state : HealthAdvisorState) : HealthyAlternativesReport :=
  if state.should_stop_processing.getD false then
    { summary := "Recommendation skipped due to issues in prior analysis."
      alternatives := [] }
  else
    match state.extracted_data with
    | none =>
      { summary := "Cannot recommend alternatives without ingredient data."
        alternatives := [] }
    | some _ =>
      match chainR with
      | Except.ok report => report
      | Except.error e =>
        { summary := "Error generating alternatives: " ++ e
          alternatives := [] }

/-- Node `alternatives_recommender_node` (lines 68-140).  The node assigns
`state["alternatives_report"]` and returns the whole (mutated) state dict, so
its update re-writes every present field with its current value and changes
only `alternatives_report`.  `searchR` is the outcome of
`search_food_alternatives`; `chainR` the outcome of `chain.ainvoke`. -/
def alternatives_recommender_node
    (_searchR : Except String (List SearchItem))
    (chainR : Except String HealthyAlternativesReport)
    (state : HealthAdvisorState) : HealthAdvisorState :=
  { state with alternatives_report := some (alternativesOutcome chainR state) }

/-! ## Terminal node (src/workflows/health_advisor_graph.py, lines 46-85) -/

/-- Node `compile_final_report_node`.  It reads `state["image_path"]`
(`KeyError` when absent) and constructs `CompleteHealthAnalysis`, whose
`extracted_data` field is required and non-`Optional`, so passing `None`
raises a Pydantic ValidationError.  `state.get("total_processing_time", 0.0)`
always yields `0.0`: no node and no seed ever writes that key.  Python's
`state.get(k, default)` returns a present-`None` value rather than the
default; absent and present-`None` are conflated here (see
`HealthAdvisorState`). -/
def compile_final_report_node (state : HealthAdvisorState) :
    Except String HealthAdvisorState :=
  match state.image_path with
  | none => Except.error "KeyError: image_path"
  | some image_path =>
    match state.extracted_data with
    | none => Except.error "ValidationError: extracted_data may not be None"
    | some ed =>
      let base : CompleteHealthAnalysis :=
        { input_image_path := image_path
          extracted_data := ed
          benefits_analysis := state.benefits_analysis
          disadvantages_analysis := state.disadvantages_analysis
          disease_analysis := state.disease_analysis
          alternatives_report := state.alternatives_report
          processing_time_seconds := some 0 }
      let final_report : CompleteHealthAnalysis :=
        if state.should_stop_processing.getD false then
          { base with
            final_summary_message_for_user :=
              some ("Analysis could not be completed for " ++ image_path ++ ". " ++
                "Reason: " ++ (state.error_message.getD "Unknown error during processing.")) }
        else
          -- `elif final_report.extracted_data:` — a model instance is truthy,
          -- and extracted_data is present in this branch.
          let parts : List String :=
            (match state.benefits_analysis with
             | some r =>
               if r.findings.isEmpty then []
               else ["Benefits: " ++ String.intercalate ", " (r.findings.take 2) ++ "."]
             | none => []) ++
            (match state.disadvantages_analysis with
             | some r =>
               if r.findings.isEmpty then []
               else ["Concerns: " ++ String.intercalate ", " (r.findings.take 2) ++ "."]
             | none => []) ++
            (match state.alternatives_report with
             | some ar =>
               match ar.alternatives with
               | a :: _ => ["Consider alternatives like: " ++ a.product_name ++ "."]
               | [] => [ar.summary]
             | none => [])
          let msg := if parts.isEmpty then "Basic analysis complete."
                     else String.intercalate " " parts
          { base with
            final_summary_message_for_user := some msg
            overall_health_assessment := some msg }
      Except.ok { state with final_analysis := some final_report }

/-! ## Graph wiring (src/workflows/health_advisor_graph.py, lines 89-108)

START → extract_ingredients → {analyze_benefits, analyze_disadvantages,
analyze_disease_associations} (fan-out; each reads the post-extraction state)
→ recommend_alternatives (fan-in join) → compile_final_report → END. -/

/-- Oracle outcomes for one run: the result each external executor would
produce if invoked. -/
structure RunOracles where
  encodeR : Except String String
  llmR : Except String ExtractedIngredientsData
  benefitsSearchR : Except String (List SearchItem)
  benefitsChainR : Except String HealthAnalysisReport
  disadvantagesSearchR : Except String (List SearchItem)
  disadvantagesChainR : Except String HealthAnalysisReport
  diseaseSearchR : Except String (List SearchItem)
  diseaseChainR : Except String HealthAnalysisReport
  altSearchR : Except String (List SearchItem)
  altChainR : Except String HealthyAlternativesReport

/-- One run of the compiled graph's dataflow: the entry node runs alone, the
three analysis nodes each read the post-extraction state and their patches
are merged, the alternatives node joins on all three, and the terminal node
compiles the report (src/workflows/health_advisor_graph.py, lines 89-105). -/
def runPipeline (o : RunOracles) (seed : HealthAdvisorState) :
    Except String HealthAdvisorState := do
  let s1 ← ingredient_extractor_node o.encodeR o.llmR seed
  let s2 := applyPatch s1 (benefits_analysis_node o.benefitsSearchR o.benefitsChainR s1)
  let s3 := applyPatch s2 (disadvantages_analysis_node o.disadvantagesSearchR o.disadvantagesChainR s1)
  let s4 := applyPatch s3 (disease_analysis_node o.diseaseSearchR o.diseaseChainR s1)
  let s5 := alternatives_recommender_node o.altSearchR o.altChainR s4
  compile_final_report_node s5

/-! ## Graph specification and construction

The repository delegates graph validation to the langgraph framework
(`workflow.compile()`); no validation code lives under `src/`.  The
GraphSpec data model and its construction-time validation are therefore
modelled from the spec (§3 GraphSpec, §4.2, §8). -/

/-- Modelled from the spec: one node of a GraphSpec — `nodes = {id, input
fields, output fields, executor}` (§3); the executor is opaque here. -/
structure NodeSpec where
  id : String
  inputs : List String
  outputs : List String
  deriving DecidableEq, Repr

/-- Modelled from the spec: a GraphSpec together with the seed fields
supplied at run start (§3, §4.2 constraint (a)). -/
structure GraphSpec where
  nodes : List NodeSpec
  seeds : List String
  deriving DecidableEq, Repr

/-- Derived dependency edge (§3): node `i` depends on every *other* node
that declares one of `i`'s required input fields as output.  Nodes are
addressed by position in `g.nodes`. -/
def dependsOn (g : GraphSpec) (i j : Nat) : Bool :=
  decide (i ≠ j) &&
    match g.nodes[i]?, g.nodes[j]? with
    | some a, some b => a.inputs.any fun f => b.outputs.contains f
    | _, _ => false

/-- Number of nodes declaring `f` as an output field. -/
def producerCount (g : GraphSpec) (f : String) : Nat :=
  (g.nodes.filter fun n => n.outputs.contains f).length

/-- Modelled from the spec (§4.2 constraint (a)): every input field
referenced by any node must be produced by exactly one node or be a seed
field supplied at run start. -/
def fieldsResolvable (g : GraphSpec) : Bool :=
  g.nodes.all fun n => n.inputs.all fun f =>
    producerCount g f = 1 || g.seeds.contains f

/-- A node is ready when it depends on no remaining node. -/
def readyNode (g : GraphSpec) (remaining : List Nat) (i : Nat) : Bool :=
  remaining.all fun j => !dependsOn g i j

/-- Modelled from the spec (§4.2 constraint (b)): acyclicity is validated
via topological sort — repeatedly remove all dependency-free nodes; a round
with remaining nodes but none removable means a cycle. -/
def kahnAux (g : GraphSpec) : Nat → List Nat → Bool
  | 0, remaining => remaining.isEmpty
  | fuel + 1, remaining =>
    if remaining.isEmpty then true
    else if remaining.any (readyNode g remaining) then
      kahnAux g fuel (remaining.filter fun i => !readyNode g remaining i)
    else false

/-- The topological-sort validation over all node positions. -/
def topoSortOk (g : GraphSpec) : Bool :=
  kahnAux g g.nodes.length (List.range g.nodes.length)

/-- Modelled from the spec (§4.2, §8): construction-time validation —
acyclic derived dependencies, and every required input field with exactly
one producer or seeded. -/
def validateGraphSpec (g : GraphSpec) : Bool :=
  fieldsResolvable g && topoSortOk g

/-- The GraphSpec derived from the health-advisor workflow: each node's
input fields are the state keys it reads and its output fields the declared
state keys it writes (src/nodes/, src/workflows/health_advisor_graph.py);
`image_path` is the seed field supplied by the caller (src/main.py). -/
def healthAdvisorGraphSpec : GraphSpec :=
  { nodes :=
      [ { id := "extract_ingredients"
          inputs := ["image_path"]
          outputs := ["extracted_data", "should_stop_processing", "error_message"] }
      , { id := "analyze_benefits"
          inputs := ["should_stop_processing", "extracted_data"]
          outputs := ["benefits_analysis"] }
      , { id := "analyze_disadvantages"
          inputs := ["should_stop_processing", "extracted_data"]
          outputs := ["disadvantages_analysis"] }
      , { id := "analyze_disease_associations"
          inputs := ["should_stop_processing", "extracted_data"]
          outputs := ["disease_analysis"] }
      , { id := "recommend_alternatives"
          inputs := ["should_stop_processing", "extracted_data",
                     "benefits_analysis", "disadvantages_analysis", "disease_analysis"]
          outputs := ["alternatives_report"] }
      , { id := "compile_final_report"
          inputs := ["image_path", "extracted_data", "should_stop_processing",
                     "error_message", "benefits_analysis", "disadvantages_analysis",
                     "disease_analysis", "alternatives_report"]
          outputs := ["final_analysis"] } ]
    seeds := ["image_path"] }

/-- A Python function call: `params` formal parameters applied to `args`
positional arguments; a count mismatch raises `TypeError` at the call site. -/
def pyCall (params args : Nat) : Except String Unit :=
  if args = params then Except.ok ()
  else Except.error "TypeError: positional argument count mismatch"

/-- Function `create_health_advisor_graph`
(src/workflows/health_advisor_graph.py, lines 24-43): before any graph
object is assembled it calls the five node factories, in source order, with
the argument counts written at each call site.  The factories accept one
parameter each: `create_ingredient_extractor_node(groq_api_key)`
(src/nodes/ingredient_extractor.py, line 10), `create_node_function
(groq_api_key)` returned for each analysis type
(src/nodes/analysis_node.py, line 32), and
`create_alternatives_recommender_node(groq_api_key)`
(src/nodes/alternatives_recommender.py, line 15).  The graph module calls
the four analysis/alternatives factories with two arguments,
`(google_api_key, mcp_tools)` (lines 30-33). -/
def create_health_advisor_graph : Except String GraphSpec := do
  _ ← pyCall 1 1  -- line 29: create_ingredient_extractor_node(groq_api_key)
  _ ← pyCall 1 2  -- line 30: create_benefits_analysis_node(google_api_key, mcp_tools)
  _ ← pyCall 1 2  -- line 31: create_disadvantages_analysis_node(google_api_key, mcp_tools)
  _ ← pyCall 1 2  -- line 32: create_disease_analysis_node(google_api_key, mcp_tools)
  _ ← pyCall 1 2  -- line 33: create_alternatives_recommender_node(google_api_key, mcp_tools)
  pure healthAdvisorGraphSpec

/-! ## Concrete run: the spec's §8 scenario

Seed `{image_valid: true, ingredients: ["sugar","salt"]}`, stub executors
returning one finding per analysis branch and zero alternatives. -/

/-- The seed state of `run_health_analysis` (src/main.py, lines 35-46):
`image_path` set, `should_stop_processing` seeded `False`, everything else
`None`. -/
def scenarioSeed : HealthAdvisorState :=
  { image_path := some "Real.jpg", should_stop_processing := some false }

/-- Stub extraction result: a valid food image with ingredients sugar and
salt. -/
def scenarioExtracted : ExtractedIngredientsData :=
  { validation_status := ImageValidationStatus.valid_food_image
    is_food_product := some true
    ingredients := ["sugar", "salt"]
    confidence_score := 1 }

/-- Stub benefits report with one finding. -/
def benefitsStub : HealthAnalysisReport :=
  { analysis_type := "benefits"
    findings := ["Quick energy from sugar"]
    detailed_analysis := "Sugar provides quick energy."
    confidence_level := "High"
    health_score_impact := some 2 }

/-- Stub disadvantages report with one finding. -/
def disadvantagesStub : HealthAnalysisReport :=
  { analysis_type := "disadvantages"
    findings := ["High sugar content"]
    detailed_analysis := "Sugar and salt in excess are harmful."
    confidence_level := "High"
    health_score_impact := some (-3) }

/-- Stub disease-associations report with one finding. -/
def diseaseStub : HealthAnalysisReport :=
  { analysis_type := "disease_associations"
    findings := ["Linked to diabetes risk"]
    detailed_analysis := "Sugar intake is associated with diabetes."
    confidence_level := "Medium"
    health_score_impact := some (-2) }

/-- Stub alternatives report with zero alternatives. -/
def alternativesStub : HealthyAlternativesReport :=
  { alternatives := [], summary := "Product is acceptable in moderation." }

/-- The oracle outcomes of the §8 scenario run: every executor succeeds. -/
def scenarioOracles : RunOracles :=
  { encodeR := Except.ok "b64"
    llmR := Except.ok scenarioExtracted
    benefitsSearchR := Except.ok []
    benefitsChainR := Except.ok benefitsStub
    disadvantagesSearchR := Except.ok []
    disadvantagesChainR := Except.ok disadvantagesStub
    diseaseSearchR := Except.ok []
    diseaseChainR := Except.ok diseaseStub
    altSearchR := Except.ok []
    altChainR := Except.ok alternativesStub }

/-- A state whose short-circuit flag is set, as left by the entry node after
a failed validation. -/
def stoppedState : HealthAdvisorState :=
  { image_path := some "Real.jpg"
    extracted_data := some (encodeErrorData "Image file not found at Real.jpg")
    should_stop_processing := some true
    error_message := some "Image file not found at Real.jpg" }

/-! ## Helper lemmas -/

/-- The benefits node's patch merges as a single `LastValue` write to
`benefits_analysis`. -/
theorem applyPatch_benefits (s s1 : HealthAdvisorState)
    (sR : Except String (List SearchItem)) (cR : Except String HealthAnalysisReport) :
    applyPatch s (benefits_analysis_node sR cR s1) =
      { s with benefits_analysis := some (analysisOutcome "benefits" cR s1) } := rfl

/-- The disadvantages node's patch merges as a single `LastValue` write to
`disadvantages_analysis`. -/
theorem applyPatch_disadvantages (s s1 : HealthAdvisorState)
    (sR : Except String (List SearchItem)) (cR : Except String HealthAnalysisReport) :
    applyPatch s (disadvantages_analysis_node sR cR s1) =
      { s with disadvantages_analysis := some (analysisOutcome "disadvantages" cR s1) } := rfl

/-- The disease node's patch key `disease_associations_analysis` is not a
declared channel, so merging its patch changes nothing. -/
theorem applyPatch_disease (s s1 : HealthAdvisorState)
    (sR : Except String (List SearchItem)) (cR : Except String HealthAnalysisReport) :
    applyPatch s (disease_analysis_node sR cR s1) = s := rfl

/-- The entry node succeeds on every state that carries an `image_path`,
preserves the path, and always stores extraction data and an explicit
short-circuit flag. -/
theorem ingredient_extractor_ok (eR : Except String String)
    (lR : Except String ExtractedIngredientsData) (s : HealthAdvisorState)
    (p : String) (h : s.image_path = some p) :
    ∃ s1, ingredient_extractor_node eR lR s = Except.ok s1 ∧
      s1.image_path = some p ∧ s1.extracted_data.isSome = true ∧
      s1.should_stop_processing.isSome = true := by
  unfold ingredient_extractor_node
  rw [h]
  cases eR with
  | error e => exact ⟨_, rfl, rfl, rfl, rfl⟩
  | ok b =>
    cases lR with
    | error e => exact ⟨_, rfl, rfl, rfl, rfl⟩
    | ok ed => exact ⟨_, rfl, rfl, rfl, rfl⟩

/-- The terminal node succeeds on every state that carries an `image_path`
and a non-`None` `extracted_data`, stores a report, and leaves the
short-circuit flag untouched. -/
theorem compile_final_report_ok (s : HealthAdvisorState) (p : String)
    (ed : ExtractedIngredientsData) (h1 : s.image_path = some p)
    (h2 : s.extracted_data = some ed) :
    ∃ s2, compile_final_report_node s = Except.ok s2 ∧
      s2.final_analysis.isSome = true ∧
      s2.should_stop_processing = s.should_stop_processing := by
  unfold compile_final_report_node
  rw [h1, h2]
  exact ⟨_, rfl, rfl, rfl⟩

/-- Every run whose seed carries an `image_path` flows through all six nodes
and ends with a compiled report, whatever every executor does. -/
theorem runPipeline_ok (o : RunOracles) (seed : HealthAdvisorState) (p : String)
    (h : seed.image_path = some p) :
    ∃ s2, runPipeline o seed = Except.ok s2 ∧ s2.final_analysis.isSome = true := by
  obtain ⟨s1, h1, hip, hed, _⟩ := ingredient_extractor_ok o.encodeR o.llmR seed p h
  obtain ⟨ed, hed'⟩ := Option.isSome_iff_exists.mp hed
  have hip5 :
      (alternatives_recommender_node o.altSearchR o.altChainR
        (applyPatch
          (applyPatch
            (applyPatch s1 (benefits_analysis_node o.benefitsSearchR o.benefitsChainR s1))
            (disadvantages_analysis_node o.disadvantagesSearchR o.disadvantagesChainR s1))
          (disease_analysis_node o.diseaseSearchR o.diseaseChainR s1))).image_path = some p := hip
  have hed5 :
      (alternatives_recommender_node o.altSearchR o.altChainR
        (applyPatch
          (applyPatch
            (applyPatch s1 (benefits_analysis_node o.benefitsSearchR o.benefitsChainR s1))
            (disadvantages_analysis_node o.disadvantagesSearchR o.disadvantagesChainR s1))
          (disease_analysis_node o.diseaseSearchR o.diseaseChainR s1))).extracted_data = some ed := hed'
  obtain ⟨s2, hc, hfin, _⟩ := compile_final_report_ok _ p ed hip5 hed5
  refine ⟨s2, ?_, hfin⟩
  unfold runPipeline
  rw [h1]
  exact hc

/-! ## Claim theorems -/

/-- Claim C1: the claim says construction via `create_health_advisor_graph`
succeeds for every valid graph specification.  The health-advisor
specification is valid — acyclic derived dependencies and every required
input field with exactly one producer or seeded (second conjunct) — yet
construction always raises `TypeError`: the graph module calls the four
analysis/alternatives node factories with two arguments
`(google_api_key, mcp_tools)` while each factory declares a single
parameter `groq_api_key` (first conjunct). -/
theorem c1_construction_raises_type_error :
    create_health_advisor_graph =
      Except.error "TypeError: positional argument count mismatch"
    ∧ validateGraphSpec healthAdvisorGraphSpec = true :=
  ⟨rfl, by decide⟩

/-- Claim C2: the claim says the disease analysis node writes exactly the
field `disease_analysis`.  In the code its patch key is the f-string
`f"{analysis_type}_analysis"` with `analysis_type = "disease_associations"`,
i.e. `disease_associations_analysis` — a field that is not declared in
`HealthAdvisorState` — so merging the patch never writes `disease_analysis`. -/
theorem c2_disease_node_writes_undeclared_field :
    (∀ (sR : Except String (List SearchItem))
       (cR : Except String HealthAnalysisReport) (s : HealthAdvisorState),
       (disease_analysis_node sR cR s).map Prod.fst = ["disease_associations_analysis"])
    ∧ "disease_associations_analysis" ∉ declaredFields
    ∧ (∀ (sR : Except String (List SearchItem))
         (cR : Except String HealthAnalysisReport) (s s1 : HealthAdvisorState),
         (applyPatch s (disease_analysis_node sR cR s1)).disease_analysis = s.disease_analysis) :=
  ⟨fun _ _ _ => rfl, by decide, fun _ _ _ _ => rfl⟩

/-- Claim C3: every state reaching the terminal compile node yields a
report.  First conjunct: on any state carrying an `image_path` and a
non-`None` `extracted_data` — whatever the four analysis/alternatives
fields hold, including all-`None` — `compile_final_report_node` succeeds
and stores a `final_analysis` report.  Second conjunct: every run of the
graph whose seed carries an `image_path` ends with `Except.ok` and a
report, for all executor outcomes, because the entry node always stores a
non-`None` `extracted_data` and downstream nodes preserve it. -/
theorem c3_compile_always_returns_report :
    (∀ (s : HealthAdvisorState) (p : String) (ed : ExtractedIngredientsData),
       s.image_path = some p → s.extracted_data = some ed →
       ∃ s2, compile_final_report_node s = Except.ok s2 ∧ s2.final_analysis.isSome = true)
    ∧ (∀ (o : RunOracles) (seed : HealthAdvisorState) (p : String),
       seed.image_path = some p →
       ∃ s2, runPipeline o seed = Except.ok s2 ∧ s2.final_analysis.isSome = true) := by
  constructor
  · intro s p ed h1 h2
    obtain ⟨s2, hc, hfin, _⟩ := compile_final_report_ok s p ed h1 h2
    exact ⟨s2, hc, hfin⟩
  · intro o seed p h
    exact runPipeline_ok o seed p h

/-- Witness for C3 at the §8 scenario seed and oracles. -/
theorem c3_witness :
    (∃ s2, compile_final_report_node stoppedState = Except.ok s2 ∧
      s2.final_analysis.isSome = true)
    ∧ (∃ s2, runPipeline scenarioOracles scenarioSeed = Except.ok s2 ∧
      s2.final_analysis.isSome = true) :=
  ⟨c3_compile_always_returns_report.1 stoppedState "Real.jpg"
      (encodeErrorData "Image file not found at Real.jpg") rfl rfl,
   c3_compile_always_returns_report.2 scenarioOracles scenarioSeed "Real.jpg" rfl⟩

/-- Claim C4: when the short-circuit flag is set in the state a node
receives, each of the benefits, disadvantages, disease and alternatives
nodes returns its skipped placeholder, and the result is the same whatever
the search and chain executors would have produced — the executors are
never consulted. -/
theorem c4_short_circuit_skips_executors :
    ∀ s : HealthAdvisorState, s.should_stop_processing = some true →
      (∀ (sR : Except String (List SearchItem)) (cR : Except String HealthAnalysisReport),
        benefits_analysis_node sR cR s =
          [("benefits_analysis", FieldValue.report (skippedReport "benefits"))])
      ∧ (∀ (sR : Except String (List SearchItem)) (cR : Except String HealthAnalysisReport),
        disadvantages_analysis_node sR cR s =
          [("disadvantages_analysis", FieldValue.report (skippedReport "disadvantages"))])
      ∧ (∀ (sR : Except String (List SearchItem)) (cR : Except String HealthAnalysisReport),
        disease_analysis_node sR cR s =
          [("disease_associations_analysis",
            FieldValue.report (skippedReport "disease_associations"))])
      ∧ (∀ (sR : Except String (List SearchItem)) (cR : Except String HealthyAlternativesReport),
        alternatives_recommender_node sR cR s =
          { s with
            alternatives_report :=
              some ({ summary := "Recommendation skipped due to issues in prior analysis."
                      alternatives := [] } : HealthyAlternativesReport) }) := by
  intro s h
  refine ⟨fun sR cR => ?_, fun sR cR => ?_, fun sR cR => ?_, fun sR cR => ?_⟩ <;>
    simp [benefits_analysis_node, disadvantages_analysis_node, disease_analysis_node,
      analysis_node, analysisOutcome, alternatives_recommender_node, alternativesOutcome, h]

/-- Witness for C4 at a concrete short-circuited state, with executors that
would blow up if consulted. -/
theorem c4_witness :
    benefits_analysis_node (Except.error "no network") (Except.error "llm down") stoppedState =
      [("benefits_analysis", FieldValue.report (skippedReport "benefits"))] :=
  (c4_short_circuit_skips_executors stoppedState rfl).1
    (Except.error "no network") (Except.error "llm down")

/-- Claim C6: the patches of the three parallel analysis nodes carry
pairwise-disjoint key sets, and merging them into any state in any of the
six completion orders yields the same state, for any fixed executor
outcomes. -/
theorem c6_parallel_merge_order_independent :
    ∀ (s s1 : HealthAdvisorState)
      (sRb sRd sRz : Except String (List SearchItem))
      (cRb cRd cRz : Except String HealthAnalysisReport),
      List.Disjoint ((benefits_analysis_node sRb cRb s1).map Prod.fst)
        ((disadvantages_analysis_node sRd cRd s1).map Prod.fst)
      ∧ List.Disjoint ((benefits_analysis_node sRb cRb s1).map Prod.fst)
        ((disease_analysis_node sRz cRz s1).map Prod.fst)
      ∧ List.Disjoint ((disadvantages_analysis_node sRd cRd s1).map Prod.fst)
        ((disease_analysis_node sRz cRz s1).map Prod.fst)
      ∧ (let pb := benefits_analysis_node sRb cRb s1
         let pd := disadvantages_analysis_node sRd cRd s1
         let pz := disease_analysis_node sRz cRz s1
         applyPatch (applyPatch (applyPatch s pb) pd) pz =
           applyPatch (applyPatch (applyPatch s pb) pz) pd
         ∧ applyPatch (applyPatch (applyPatch s pb) pd) pz =
           applyPatch (applyPatch (applyPatch s pd) pb) pz
         ∧ applyPatch (applyPatch (applyPatch s pb) pd) pz =
           applyPatch (applyPatch (applyPatch s pd) pz) pb
         ∧ applyPatch (applyPatch (applyPatch s pb) pd) pz =
           applyPatch (applyPatch (applyPatch s pz) pb) pd
         ∧ applyPatch (applyPatch (applyPatch s pb) pd) pz =
           applyPatch (applyPatch (applyPatch s pz) pd) pb) := by
  intro s s1 sRb sRd sRz cRb cRd cRz
  refine ⟨?_, ?_, ?_, rfl, rfl, rfl, rfl, rfl⟩
  · show List.Disjoint ["benefits_analysis"] ["disadvantages_analysis"]
    simp [List.Disjoint]
  · show List.Disjoint ["benefits_analysis"] ["disease_associations_analysis"]
    simp [List.Disjoint]
  · show List.Disjoint ["disadvantages_analysis"] ["disease_associations_analysis"]
    simp [List.Disjoint]

/-- Claim C7 counterexample: at the spec's §8 scenario (valid food image,
ingredients sugar and salt, one stub finding per analysis branch, zero
alternatives) the run does complete with a report, but the report's
`disease_analysis` is `None` — so there are not three non-empty finding
lists — and the final summary, shown verbatim, references the benefits and
disadvantages findings and the alternatives summary but not the disease
finding. -/
theorem c7_counterexample_scenario :
    ((runPipeline scenarioOracles scenarioSeed).toOption.bind
        (fun s => s.final_analysis)).map
      (fun rep => (rep.disease_analysis, rep.benefits_analysis.isSome,
        rep.final_summary_message_for_user)) =
    some (none, true,
      some ("Benefits: Quick energy from sugar. Concerns: High sugar content. " ++
        "Product is acceptable in moderation.")) := rfl

/-- Claim C7 amended: at the §8 scenario the compiled report (which carries
no status field) holds the extraction data, the benefits and disadvantages
stub findings, an alternatives report with zero alternatives,
`disease_analysis = None` (the disease node's patch key
`disease_associations_analysis` is not a declared field), and a summary
referencing the first benefits finding, the first disadvantages finding and
the alternatives summary. -/
theorem c7_amended_scenario_report :
    (runPipeline scenarioOracles scenarioSeed).toOption.bind
        (fun s => s.final_analysis) =
      some { input_image_path := "Real.jpg"
             extracted_data := scenarioExtracted
             benefits_analysis := some benefitsStub
             disadvantages_analysis := some disadvantagesStub
             disease_analysis := none
             alternatives_report := some alternativesStub
             overall_health_assessment :=
               some ("Benefits: Quick energy from sugar. Concerns: High sugar content. " ++
                 "Product is acceptable in moderation.")
             processing_time_seconds := some 0
             final_summary_message_for_user :=
               some ("Benefits: Quick energy from sugar. Concerns: High sugar content. " ++
                 "Product is acceptable in moderation.") } := rfl

/-- Claim C8 counterexample: the claim also covers the search tool, but a
search-tool exception does not yield a degraded patch.  With the search
oracle raising — as on every real alternatives run, since
`MCPSearchTool` has no method `search_food_alternatives`
(src/tools/mcp_search_tool.py) and the call at
src/nodes/alternatives_recommender.py line 102 raises `AttributeError` —
and the chain succeeding, both the alternatives node and an analysis node
return the chain's normal report, which carries no error description and
differs from the degraded form. -/
theorem c8_counterexample_search_exception_ignored :
    (alternatives_recommender_node
        (Except.error "AttributeError: MCPSearchTool has no attribute search_food_alternatives")
        (Except.ok alternativesStub)
        { scenarioSeed with extracted_data := some scenarioExtracted } =
      { scenarioSeed with
        extracted_data := some scenarioExtracted
        alternatives_report := some alternativesStub })
    ∧ alternativesStub ≠
        ({ summary := "Error generating alternatives: " ++
             "AttributeError: MCPSearchTool has no attribute search_food_alternatives"
           alternatives := [] } : HealthyAlternativesReport)
    ∧ (analysis_node "benefits"
        (Except.error "MCP search error")
        (Except.ok benefitsStub)
        { scenarioSeed with extracted_data := some scenarioExtracted } =
      [("benefits_analysis", FieldValue.report benefitsStub)])
    ∧ benefitsStub ≠ chainErrorReport "benefits" "MCP search error" :=
  ⟨rfl, by decide, rfl, by decide⟩

/-- Claim C8 amended: only a chain (LLM) exception is converted into a
degraded output; a search-tool exception is caught before the chain call
and folded into the prompt context only, after which the node returns the
chain's normal report.  (a) For every analysis type and every state with
extracted ingredients, a chain exception `e` yields the degraded patch
carrying `e` in place of the normal analysis.  (b) Likewise for the
alternatives node (which only requires extraction data).  (c)(d) When the
search tool raises and the chain succeeds, the analysis and alternatives
nodes return the chain's normal, non-degraded output.  (e) A full scenario
run in which every chain executor raises still completes with a report
whose fields carry the degraded outputs; in no case does an exception
propagate or abort the run. -/
theorem c8_amended_exception_containment :
    (∀ (t : String) (s : HealthAdvisorState) (ed : ExtractedIngredientsData)
       (sR : Except String (List SearchItem)) (e : String),
       s.should_stop_processing.getD false = false → s.extracted_data = some ed →
       ed.ingredients ≠ [] →
       analysis_node t sR (Except.error e) s =
         [(t ++ "_analysis", FieldValue.report (chainErrorReport t e))])
    ∧ (∀ (s : HealthAdvisorState) (ed : ExtractedIngredientsData)
         (sR : Except String (List SearchItem)) (e : String),
       s.should_stop_processing.getD false = false → s.extracted_data = some ed →
       alternatives_recommender_node sR (Except.error e) s =
         { s with
           alternatives_report :=
             some ({ summary := "Error generating alternatives: " ++ e
                     alternatives := [] } : HealthyAlternativesReport) })
    ∧ (∀ (t : String) (s : HealthAdvisorState) (ed : ExtractedIngredientsData)
         (e : String) (r : HealthAnalysisReport),
       s.should_stop_processing.getD false = false → s.extracted_data = some ed →
       ed.ingredients ≠ [] →
       analysis_node t (Except.error e) (Except.ok r) s =
         [(t ++ "_analysis", FieldValue.report r)])
    ∧ (∀ (s : HealthAdvisorState) (ed : ExtractedIngredientsData)
         (e : String) (r : HealthyAlternativesReport),
       s.should_stop_processing.getD false = false → s.extracted_data = some ed →
       alternatives_recommender_node (Except.error e) (Except.ok r) s =
         { s with alternatives_report := some r })
    ∧ (∀ e1 e2 e3 e4 : String,
       ((runPipeline { scenarioOracles with
            benefitsChainR := Except.error e1
            disadvantagesChainR := Except.error e2
            diseaseChainR := Except.error e3
            altChainR := Except.error e4 } scenarioSeed).toOption.bind
          (fun s => s.final_analysis)).map
         (fun rep => (rep.benefits_analysis, rep.disadvantages_analysis,
           rep.alternatives_report)) =
       some (some (chainErrorReport "benefits" e1),
             some (chainErrorReport "disadvantages" e2),
             some ({ summary := "Error generating alternatives: " ++ e4
                     alternatives := [] } : HealthyAlternativesReport))) := by
  refine ⟨?_, ?_, ?_, ?_, ?_⟩
  · intro t s ed sR e hstop hed hne
    simp [analysis_node, analysisOutcome, hstop, hed, List.isEmpty_iff, hne]
  · intro s ed sR e hstop hed
    simp [alternatives_recommender_node, alternativesOutcome, hstop, hed]
  · intro t s ed e r hstop hed hne
    simp [analysis_node, analysisOutcome, hstop, hed, List.isEmpty_iff, hne]
  · intro s ed e r hstop hed
    simp [alternatives_recommender_node, alternativesOutcome, hstop, hed]
  · intro e1 e2 e3 e4
    rfl

/-- Witness for C8's amended statement at a concrete state, a concrete
chain exception, and a concrete search exception. -/
theorem c8_witness :
    (analysis_node "benefits" (Except.ok []) (Except.error "boom")
        { scenarioSeed with extracted_data := some scenarioExtracted } =
      [("benefits_analysis", FieldValue.report (chainErrorReport "benefits" "boom"))])
    ∧ (analysis_node "benefits" (Except.error "no network") (Except.ok benefitsStub)
        { scenarioSeed with extracted_data := some scenarioExtracted } =
      [("benefits_analysis", FieldValue.report benefitsStub)]) :=
  ⟨c8_amended_exception_containment.1 "benefits"
      { scenarioSeed with extracted_data := some scenarioExtracted }
      scenarioExtracted (Except.ok []) "boom" rfl rfl (by decide),
   c8_amended_exception_containment.2.2.1 "benefits"
      { scenarioSeed with extracted_data := some scenarioExtracted }
      scenarioExtracted "no network" benefitsStub rfl rfl (by decide)⟩

/-- Claim C9 counterexample: the short-circuit flag is not monotonic within
a run.  On a seed whose flag is already true, a successful valid extraction
makes the entry node set the flag back to false — it recomputes the flag
from its own validation outcome rather than or-ing it in. -/
theorem c9_counterexample_flag_reset :
    (ingredient_extractor_node (Except.ok "b64") (Except.ok scenarioExtracted)
        { scenarioSeed with should_stop_processing := some true }).toOption.map
      (fun s => s.should_stop_processing) = some (some false) := rfl

/-- Claim C9 amended: the flag's value is changed only by the entry node,
which recomputes it each run from its own validation outcome (so a flag
seeded true can be reset); after the entry node completes the flag never
changes: the analysis patches do not touch it, the alternatives node
re-writes the state without altering it, and the compile node preserves
it. -/
theorem c9_amended_flag_changed_only_by_entry :
    (∀ (sR : Except String (List SearchItem))
       (cR : Except String HealthAnalysisReport) (s s1 : HealthAdvisorState),
       (applyPatch s (benefits_analysis_node sR cR s1)).should_stop_processing =
         s.should_stop_processing)
    ∧ (∀ (sR : Except String (List SearchItem))
         (cR : Except String HealthAnalysisReport) (s s1 : HealthAdvisorState),
       (applyPatch s (disadvantages_analysis_node sR cR s1)).should_stop_processing =
         s.should_stop_processing)
    ∧ (∀ (sR : Except String (List SearchItem))
         (cR : Except String HealthAnalysisReport) (s s1 : HealthAdvisorState),
       (applyPatch s (disease_analysis_node sR cR s1)).should_stop_processing =
         s.should_stop_processing)
    ∧ (∀ (sR : Except String (List SearchItem))
         (cR : Except String HealthyAlternativesReport) (s : HealthAdvisorState),
       (alternatives_recommender_node sR cR s).should_stop_processing =
         s.should_stop_processing)
    ∧ (∀ (s s2 : HealthAdvisorState), compile_final_report_node s = Except.ok s2 →
       s2.should_stop_processing = s.should_stop_processing) := by
  refine ⟨fun _ _ _ _ => rfl, fun _ _ _ _ => rfl, fun _ _ _ _ => rfl, fun _ _ _ => rfl, ?_⟩
  intro s s2 h
  unfold compile_final_report_node at h
  cases hip : s.image_path with
  | none => rw [hip] at h; exact absurd h (by simp)
  | some p =>
    rw [hip] at h
    cases hed : s.extracted_data with
    | none => rw [hed] at h; exact absurd h (by simp)
    | some ed =>
      rw [hed] at h
      simp only [Except.ok.injEq] at h
      subst h
      rfl

/-- Witness for C9's amended statement: the compile-node conjunct applied
at a concrete short-circuited state. -/
theorem c9_witness :
    ∃ s2, compile_final_report_node stoppedState = Except.ok s2 ∧
      s2.should_stop_processing = some true := by
  obtain ⟨s2, h⟩ : ∃ s2, compile_final_report_node stoppedState = Except.ok s2 := ⟨_, rfl⟩
  refine ⟨s2, h, ?_⟩
  rw [c9_amended_flag_changed_only_by_entry.2.2.2.2 stoppedState s2 h]
  rfl

/-- Claim C10: for every input state carrying an `image_path`, the entry
node returns a state whose `extracted_data` is a non-`None`
`ExtractedIngredientsData` and whose short-circuit flag is explicitly set,
true exactly when image encoding failed, LLM processing failed, or the
extracted `validation_status` is not `valid_food_image`. -/
theorem c10_extractor_sets_data_and_flag :
    ∀ (s : HealthAdvisorState) (p : String) (eR : Except String String)
      (lR : Except String ExtractedIngredientsData),
      s.image_path = some p →
      ∃ s1, ingredient_extractor_node eR lR s = Except.ok s1 ∧
        s1.extracted_data.isSome = true ∧ s1.should_stop_processing.isSome = true ∧
        (s1.should_stop_processing = some true ↔
          ¬ ∃ ed, (∃ b, eR = Except.ok b) ∧ lR = Except.ok ed ∧
            ed.validation_status = ImageValidationStatus.valid_food_image) := by
  intro s p eR lR h
  unfold ingredient_extractor_node
  rw [h]
  cases eR with
  | error e => exact ⟨_, rfl, rfl, rfl, by simp⟩
  | ok b =>
    cases lR with
    | error e => exact ⟨_, rfl, rfl, rfl, by simp⟩
    | ok ed => exact ⟨_, rfl, rfl, rfl, by simp⟩

/-- Witness for C10 at the scenario seed with a successful valid
extraction. -/
theorem c10_witness :
    ∃ s1, ingredient_extractor_node (Except.ok "b64") (Except.ok scenarioExtracted)
        scenarioSeed = Except.ok s1 ∧
      s1.extracted_data.isSome = true ∧ s1.should_stop_processing.isSome = true ∧
      (s1.should_stop_processing = some true ↔
        ¬ ∃ ed, (∃ b, (Except.ok "b64" : Except String String) = Except.ok b) ∧
          (Except.ok scenarioExtracted : Except String ExtractedIngredientsData) =
            Except.ok ed ∧
          ed.validation_status = ImageValidationStatus.valid_food_image) :=
  c10_extractor_sets_data_and_flag scenarioSeed "Real.jpg"
    (Except.ok "b64") (Except.ok scenarioExtracted) rfl

end HealthAdvisor
